import Mathlib

/-!
Verification of the infrared.city repository's specification against its code.

The repository is four standalone Python scripts:
  * `sentinel2_multimonth_app.py`  — multi-month Sentinel-2 band stacking with
    vegetation indices (`process_multimonth_sentinel2`, the `/process` route);
  * `sentinel2_web_app.py`         — a single-month near-duplicate;
  * `greenspace_predictor_app_FINAL.py` — classification of a prepared band
    stack (`load_or_create_model`, `predict_green_spaces`);
  * `download_worldcover_sydney.py` — a tile downloader.

This file shallowly embeds the data model and the operations those scripts
perform.  Conventions used throughout:

  * A raster sample ("pixel") is `Option ℚ`: `some q` is a finite float value,
    `none` is the missing-value sentinel (NaN).  Masked loading (`masked=True`)
    yields finite values or NaN, so bands entering the arithmetic hold only
    these two kinds of values; overflow of float32 to infinity on add/sub/mul
    of in-range reflectance values does not occur and is not modelled.
  * Division is embedded fused with the `xr.where(np.isfinite(x), x, np.nan)`
    step that immediately follows each index computation in the source: an
    IEEE division by zero yields ±inf or NaN, all of which are non-finite and
    are replaced by NaN, so the fused operation maps a zero denominator to the
    sentinel directly.
  * File names are Lean `String`s; the character-level matching the source does
    with `in` / `os.path.basename` / `str.endswith` is embedded over
    `List Char` so that it evaluates by kernel reduction.
  * Library calls whose output the scripts merely pass along (rasterio loading
    and clipping, the HTTP layer's file transport) are abstracted as function
    parameters (`load : String → List Pix`, etc.); everything the scripts
    themselves compute is embedded.
-/

namespace Infrared

/-- A raster sample: `some q` is a finite value, `none` is the NaN sentinel. -/
abbrev Pix := Option ℚ

/-- Pixel-wise addition of two masked samples; NaN propagates (IEEE). -/
def pixAdd : Pix → Pix → Pix
  | some a, some b => some (a + b)
  | _, _ => none

/-- Pixel-wise subtraction of two masked samples; NaN propagates (IEEE). -/
def pixSub : Pix → Pix → Pix
  | some a, some b => some (a - b)
  | _, _ => none

/-- Scalar times sample (`c * arr` in numpy); NaN propagates. -/
def pixCMul (c : ℚ) : Pix → Pix
  | some a => some (c * a)
  | none => none

/-- Sample times scalar (`arr * c` in numpy); NaN propagates. -/
def pixMulC : Pix → ℚ → Pix
  | some a, c => some (a * c)
  | none, _ => none

/-- Sample plus scalar (`arr + c` in numpy); NaN propagates. -/
def pixAddC : Pix → ℚ → Pix
  | some a, c => some (a + c)
  | none, _ => none

/-- Division fused with the source's non-finite masking step
(`x = num / den; x = xr.where(np.isfinite(x), x, np.nan)`): a NaN operand or a
zero denominator (whose IEEE quotient is ±inf or NaN, hence non-finite)
produces the NaN sentinel; otherwise the exact quotient. -/
def pixDiv : Pix → Pix → Pix
  | some a, some b => if b = 0 then none else some (a / b)
  | _, _ => none

/-- One NDVI sample: `(nir - red) / (nir + red)`, non-finite masked
(`sentinel2_multimonth_app.py` lines 736-737). -/
def ndviPix (nir red : Pix) : Pix :=
  pixDiv (pixSub nir red) (pixAdd nir red)

/-- One EVI sample: `2.5 * (nir - red) / (nir + 6*red - 7.5*blue + 1)`,
non-finite masked (lines 742-743). -/
def eviPix (nir red blue : Pix) : Pix :=
  pixDiv (pixCMul 2.5 (pixSub nir red))
    (pixAddC (pixSub (pixAdd nir (pixCMul 6 red)) (pixCMul 7.5 blue)) 1)

/-- One SAVI sample: `((nir - red) * (1 + L)) / (nir + red + L)` with
`L = 0.5` fixed, non-finite masked (lines 748-750). -/
def saviPix (nir red : Pix) : Pix :=
  pixDiv (pixMulC (pixSub nir red) (1 + 0.5)) (pixAddC (pixAdd nir red) 0.5)

/-- Element-wise combination of three equal-shape grids (numpy broadcasting of
a ternary arithmetic expression over aligned arrays). -/
def zipWith3 (f : α → β → γ → δ) : List α → List β → List γ → List δ
  | a :: as, b :: bs, c :: cs => f a b c :: zipWith3 f as bs cs
  | _, _, _ => []

/-- A band is its flattened grid of samples; aligned bands have equal length. -/
abbrev Band := List Pix

/-- The NDVI band computed pixel-wise over aligned NIR and RED bands. -/
def ndviBand (nir red : Band) : Band := List.zipWith ndviPix nir red

/-- The EVI band computed pixel-wise over aligned NIR, RED and BLUE bands. -/
def eviBand (nir red blue : Band) : Band := zipWith3 eviPix nir red blue

/-- The SAVI band computed pixel-wise over aligned NIR and RED bands. -/
def saviBand (nir red : Band) : Band := List.zipWith saviPix nir red

lemma get?_zipWith (f : α → β → γ) (l₁ : List α) (l₂ : List β) (i : ℕ) :
    (List.zipWith f l₁ l₂)[i]? = match l₁[i]?, l₂[i]? with
      | some a, some b => some (f a b)
      | _, _ => none := by
  induction l₁ generalizing l₂ i with
  | nil => simp
  | cons a as ih =>
    cases l₂ with
    | nil => simp
    | cons b bs =>
      cases i with
      | zero => simp
      | succ j => simpa using ih bs j

lemma get?_zipWith3 (f : α → β → γ → δ) (l₁ : List α) (l₂ : List β)
    (l₃ : List γ) (i : ℕ) :
    (zipWith3 f l₁ l₂ l₃)[i]? = match l₁[i]?, l₂[i]?, l₃[i]? with
      | some a, some b, some c => some (f a b c)
      | _, _, _ => none := by
  induction l₁ generalizing l₂ l₃ i with
  | nil => simp [zipWith3]
  | cons a as ih =>
    cases l₂ with
    | nil => simp [zipWith3]
    | cons b bs =>
      cases l₃ with
      | nil =>
        cases i <;> simp [zipWith3]
      | cons c cs =>
        cases i with
        | zero => simp [zipWith3]
        | succ j => simpa [zipWith3] using ih bs cs j

/-- C1.  For every month whose four spectral bands are loaded and aligned, the
pipeline computes pixel-wise NDVI = (NIR − RED)/(NIR + RED),
EVI = 2.5 × (NIR − RED)/(NIR + 6×RED − 7.5×BLUE + 1), and
SAVI = (NIR − RED) × (1 + L)/(NIR + RED + L) with L = 0.5, and every
non-finite result (e.g. from a zero denominator) is replaced by the NaN
sentinel.  Stated per pixel: at any grid position holding finite values
`b`, `r`, `n`, each index band holds the closed-form quotient when its
denominator is non-zero and the sentinel when it is zero. -/
theorem c1_vegetation_index_formulas (blue red nir : Band) (i : ℕ) (b r n : ℚ)
    (hb : blue[i]? = some (some b)) (hr : red[i]? = some (some r))
    (hn : nir[i]? = some (some n)) :
    (ndviBand nir red)[i]? =
      some (if n + r = 0 then none else some ((n - r) / (n + r))) ∧
    (eviBand nir red blue)[i]? =
      some (if n + 6 * r - 7.5 * b + 1 = 0 then none
            else some (2.5 * (n - r) / (n + 6 * r - 7.5 * b + 1))) ∧
    (saviBand nir red)[i]? =
      some (if n + r + 0.5 = 0 then none
            else some ((n - r) * (1 + 0.5) / (n + r + 0.5))) := by
  refine ⟨?_, ?_, ?_⟩
  · rw [ndviBand, get?_zipWith, hn, hr]
    simp only [ndviPix, pixSub, pixAdd, pixDiv]
  · rw [eviBand, get?_zipWith3, hn, hr, hb]
    simp only [eviPix, pixSub, pixAdd, pixAddC, pixCMul, pixDiv]
  · rw [saviBand, get?_zipWith, hn, hr]
    simp only [saviPix, pixSub, pixAdd, pixAddC, pixMulC, pixDiv]

/-- Witness for C1 on the spec's synthetic 2×2-style grid with a known
zero-denominator pixel: at pixel 0 (NIR = RED = 0) NDVI is the sentinel, at
pixel 1 (NIR = 6, RED = 2, BLUE = 1) all three indices take their closed-form
values. -/
theorem c1_vegetation_index_formulas_witness :
    (ndviBand [some 0, some 6] [some 0, some 2])[0]? = some none ∧
    (ndviBand [some 0, some 6] [some 0, some 2])[1]? = some (some ((1:ℚ)/2)) ∧
    (eviBand [some 0, some 6] [some 0, some 2] [some 1, some 1])[1]? =
      some (some ((2.5 * 4 / 11.5 : ℚ))) ∧
    (saviBand [some 0, some 6] [some 0, some 2])[1]? =
      some (some ((4 * 1.5 / 8.5 : ℚ))) := by
  have h0 := c1_vegetation_index_formulas [some 1, some 1] [some 0, some 2]
    [some 0, some 6] 0 1 0 0 rfl rfl rfl
  have h1 := c1_vegetation_index_formulas [some 1, some 1] [some 0, some 2]
    [some 0, some 6] 1 1 2 6 rfl rfl rfl
  refine ⟨?_, ?_, ?_, ?_⟩
  · rw [h0.1]; norm_num
  · rw [h1.1]; norm_num
  · rw [h1.2.1]; norm_num
  · rw [h1.2.2]; norm_num

/-! ### Band file matching and multi-month stacking
(`sentinel2_multimonth_app.py`, `process_multimonth_sentinel2`, lines 670-762,
and the `/process` route, lines 770-839). -/

/-- The trailing path component, as `os.path.basename` computes it for the
slash-separated paths the scripts build with `os.path.join`. -/
def basename (f : String) : List Char :=
  (f.data.reverse.takeWhile (fun c => c != '/')).reverse

/-- Substring test over characters: Python's `needle in hay`. -/
def containsSub (hay needle : List Char) : Bool :=
  (List.range (hay.length + 1)).any (fun i => needle.isPrefixOf (hay.drop i))

/-- Python's `file.endswith('.jp2')`. -/
def endsWithJp2 (f : String) : Bool :=
  ".jp2".data.isSuffixOf f.data

/-- The fixed set of spectral band codes the loaders look for (line 706). -/
def bandsToLoad : List String := ["B02", "B03", "B04", "B08"]

/-- The first file whose basename contains the band code and that has the
`.jp2` extension (the `for file in month_files: ... break` search of lines
710-715); `none` when no file matches. -/
def findBandFile (band : String) (files : List String) : Option String :=
  files.find? (fun f => containsSub (basename f) band.data && endsWithJp2 f)

/-- The month-key abbreviation table (`month_names`, lines 691-695).  The
source's loop only ever looks up the three fixed keys. -/
def month_names : String → String
  | "april" => "Apr"
  | "august" => "Aug"
  | "november" => "Nov"
  | _ => ""

/-- The fixed period iteration order of the stacking loop (line 698). -/
def monthKeys : List String := ["april", "august", "november"]

/-- One iteration of the month loop (lines 709-752): find, load and clip the
four spectral bands in order (skipping band codes without a matching file),
then, when all four were found (`len(month_bands) >= 4`), append the NDVI, EVI
and SAVI bands.  `load` abstracts `rxr.open_rasterio(...).squeeze()` followed
by `rio.clip` to the AOI; each collected band is tagged
`"<BandOrIndex>-<PeriodAbbrev>"`.  The fall-through arm of the lookup match is
unreachable: four found entries with the four distinct keys mean every lookup
succeeds. -/
def processMonth (load : String → Band) (mName : String)
    (files : List String) : List (String × Band) :=
  let spectral := bandsToLoad.filterMap
    (fun b => (findBandFile b files).map (fun f => (b, load f)))
  let tagged := spectral.map (fun p => (p.1 ++ "-" ++ mName, p.2))
  if 4 ≤ spectral.length then
    match spectral.lookup "B02", spectral.lookup "B03",
        spectral.lookup "B04", spectral.lookup "B08" with
    | some blue, some _green, some red, some nir =>
        tagged ++ [("NDVI" ++ "-" ++ mName, ndviBand nir red),
                   ("EVI" ++ "-" ++ mName, eviBand nir red blue),
                   ("SAVI" ++ "-" ++ mName, saviBand nir red)]
    | _, _, _, _ => tagged
  else tagged

/-- The `all_band_arrays` / `all_band_names` accumulation over the three fixed
month keys (lines 687-752): months absent from `month_files_dict` are skipped
(`continue`), present months contribute their `processMonth` bands in order. -/
def collectBands (load : String → Band)
    (dict : List (String × List String)) : List (String × Band) :=
  monthKeys.flatMap (fun k =>
    match dict.lookup k with
    | none => []
    | some files => processMonth load (month_names k) files)

/-- The error message `xr.concat` raises when `all_band_arrays` is empty. -/
def concatEmptyMsg : String := "must supply at least one object to concatenate"

/-- The whole of `process_multimonth_sentinel2` after AOI normalization
(lines 687-762): collect the labelled bands over the three months, then stack
them; `xr.concat` on an empty list raises, which the embedding returns as
`.error`.  On success the labelled stack (and with it `len(all_band_names)`,
the function's returned band count) is produced. -/
def process_multimonth_sentinel2 (load : String → Band)
    (dict : List (String × List String)) : Except String (List (String × Band)) :=
  let bands := collectBands load dict
  if bands.isEmpty then .error concatEmptyMsg else .ok bands

/-- The `/process` route's per-month upload collection (lines 789-812): empty
month names are skipped, only `.jp2` uploads are saved, and a month enters
`month_files_dict` only when it saved at least one path. -/
def buildMonthDict (uploads : String → List String)
    (selected : List String) : List (String × List String) :=
  selected.filterMap (fun m =>
    if m = "" then none
    else
      let ps := (uploads m).filter (fun f => endsWithJp2 f)
      if ps.isEmpty then none else some (m, ps))

/-- The `/process` route (lines 770-839) reduced to its status-and-body
outcome: an empty `month_files_dict` answers 400; an exception escaping
`process_multimonth_sentinel2` is caught and answered as a JSON error with
status 500; success answers 200 with the stack file. -/
def processRoute (load : String → Band) (selected : List String)
    (uploads : String → List String) :
    Nat × Except String (List (String × Band)) :=
  let dict := buildMonthDict uploads selected
  if dict.isEmpty then (400, .error "No valid Sentinel-2 files uploaded")
  else
    match process_multimonth_sentinel2 load dict with
    | .ok stack => (200, .ok stack)
    | .error e => (500, .error e)

/-- The seven documented labels of one fully-loaded period. -/
def sevenNames (a : String) : List String :=
  ["B02" ++ "-" ++ a, "B03" ++ "-" ++ a, "B04" ++ "-" ++ a, "B08" ++ "-" ++ a,
   "NDVI" ++ "-" ++ a, "EVI" ++ "-" ++ a, "SAVI" ++ "-" ++ a]

lemma processMonth_of_all_found (load : String → Band) (a : String)
    (files : List String) (f₂ f₃ f₄ f₈ : String)
    (h₂ : findBandFile "B02" files = some f₂)
    (h₃ : findBandFile "B03" files = some f₃)
    (h₄ : findBandFile "B04" files = some f₄)
    (h₈ : findBandFile "B08" files = some f₈) :
    processMonth load a files =
      [("B02" ++ "-" ++ a, load f₂), ("B03" ++ "-" ++ a, load f₃),
       ("B04" ++ "-" ++ a, load f₄), ("B08" ++ "-" ++ a, load f₈),
       ("NDVI" ++ "-" ++ a, ndviBand (load f₈) (load f₄)),
       ("EVI" ++ "-" ++ a, eviBand (load f₈) (load f₄) (load f₂)),
       ("SAVI" ++ "-" ++ a, saviBand (load f₈) (load f₄))] := by
  simp [processMonth, bandsToLoad, h₂, h₃, h₄, h₈, List.lookup]

lemma processMonth_of_none_found (load : String → Band) (a : String)
    (files : List String)
    (h : ∀ b ∈ bandsToLoad, findBandFile b files = none) :
    processMonth load a files = [] := by
  have h₂ := h "B02" (by simp [bandsToLoad])
  have h₃ := h "B03" (by simp [bandsToLoad])
  have h₄ := h "B04" (by simp [bandsToLoad])
  have h₈ := h "B08" (by simp [bandsToLoad])
  simp [processMonth, bandsToLoad, h₂, h₃, h₄, h₈]

lemma mem_of_lookup_eq_some {α : Type} {l : List (String × α)} {k : String}
    {v : α} (h : l.lookup k = some v) : (k, v) ∈ l := by
  induction l with
  | nil => simp [List.lookup] at h
  | cons p ps ih =>
    rcases p with ⟨a, b⟩
    by_cases hab : k = a
    · subst hab
      simp [List.lookup] at h
      simp [h]
    · have hne : (k == a) = false := beq_eq_false_iff_ne.mpr hab
      simp [List.lookup, hne] at h
      exact List.mem_cons_of_mem _ (ih h)

lemma processMonth_names_of_all_found (load : String → Band) (a : String)
    (files : List String)
    (h : ∀ b ∈ bandsToLoad, (findBandFile b files).isSome) :
    (processMonth load a files).map Prod.fst = sevenNames a ∧
    (processMonth load a files).length = 7 := by
  obtain ⟨f₂, h₂⟩ := Option.isSome_iff_exists.mp (h "B02" (by simp [bandsToLoad]))
  obtain ⟨f₃, h₃⟩ := Option.isSome_iff_exists.mp (h "B03" (by simp [bandsToLoad]))
  obtain ⟨f₄, h₄⟩ := Option.isSome_iff_exists.mp (h "B04" (by simp [bandsToLoad]))
  obtain ⟨f₈, h₈⟩ := Option.isSome_iff_exists.mp (h "B08" (by simp [bandsToLoad]))
  rw [processMonth_of_all_found load a files f₂ f₃ f₄ f₈ h₂ h₃ h₄ h₈]
  simp [sevenNames]

lemma flatMap_filter {α β : Type} (p : α → Bool) (g : α → List β)
    (l : List α) :
    (l.filter p).flatMap g = l.flatMap (fun a => if p a then g a else []) := by
  induction l with
  | nil => rfl
  | cons a as ih => by_cases h : p a <;> simp [h, ih]

lemma sum_ite_seven {α : Type} (p : α → Bool) (l : List α) :
    (l.map (fun a => if p a then 7 else 0)).sum = 7 * l.countP p := by
  induction l with
  | nil => simp
  | cons a as ih =>
    by_cases h : p a <;> (simp [h, ih, List.countP_cons]; try omega)

/-- C2.  For every request stacking N periods (1 ≤ N ≤ 3) in which each
selected period has all four spectral band files matched, the output stack
contains exactly 7×N bands in the documented order: for each period in the
fixed period order (April, August, November), the four spectral bands B02,
B03, B04, B08 followed by NDVI, EVI, SAVI, each labelled
"BandOrIndex-PeriodAbbrev". -/
theorem c2_stack_seven_bands_per_period (load : String → Band)
    (dict : List (String × List String))
    (hall : ∀ p ∈ dict, ∀ b ∈ bandsToLoad, (findBandFile b p.2).isSome)
    (hN : 1 ≤ monthKeys.countP (fun k => (dict.lookup k).isSome)) :
    process_multimonth_sentinel2 load dict = .ok (collectBands load dict) ∧
    (collectBands load dict).map Prod.fst =
      (monthKeys.filter (fun k => (dict.lookup k).isSome)).flatMap
        (fun k => sevenNames (month_names k)) ∧
    (collectBands load dict).length =
      7 * monthKeys.countP (fun k => (dict.lookup k).isSome) := by
  have hm : ∀ k files, dict.lookup k = some files →
      (processMonth load (month_names k) files).map Prod.fst =
          sevenNames (month_names k) ∧
      (processMonth load (month_names k) files).length = 7 := by
    intro k files hk
    exact processMonth_names_of_all_found load (month_names k) files
      (fun b hb => hall (k, files) (mem_of_lookup_eq_some hk) b hb)
  have hmatchfst : ∀ k,
      (match dict.lookup k with
        | none => ([] : List (String × Band))
        | some files => processMonth load (month_names k) files).map Prod.fst =
      (if (dict.lookup k).isSome then sevenNames (month_names k) else []) := by
    intro k
    rcases hk : dict.lookup k with _ | files
    · simp
    · simp [(hm k files hk).1]
  have hmatchlen : ∀ k,
      (match dict.lookup k with
        | none => ([] : List (String × Band))
        | some files => processMonth load (month_names k) files).length =
      (if (dict.lookup k).isSome then 7 else 0) := by
    intro k
    rcases hk : dict.lookup k with _ | files
    · simp
    · simp [(hm k files hk).2]
  have hnames : (collectBands load dict).map Prod.fst =
      (monthKeys.filter (fun k => (dict.lookup k).isSome)).flatMap
        (fun k => sevenNames (month_names k)) := by
    rw [collectBands, List.map_flatMap,
      flatMap_filter (fun k => (dict.lookup k).isSome)
        (fun k => sevenNames (month_names k)) monthKeys]
    exact congrArg (List.flatMap monthKeys) (funext hmatchfst)
  have hlen : (collectBands load dict).length =
      7 * monthKeys.countP (fun k => (dict.lookup k).isSome) := by
    rw [collectBands, List.length_flatMap, ← sum_ite_seven
      (fun k => (dict.lookup k).isSome) monthKeys]
    exact congrArg List.sum
      (congrArg (List.map · monthKeys) (funext hmatchlen))
  have hne : collectBands load dict ≠ [] := by
    apply List.ne_nil_of_length_pos
    rw [hlen]
    omega
  refine ⟨?_, hnames, hlen⟩
  simp [process_multimonth_sentinel2, List.isEmpty_iff, hne]

/-- A load stub for concrete evaluations (the loaded grid's content is
irrelevant to band counting). -/
def loadStub : String → Band := fun _ => []

/-- A two-month request in which each selected period matches all four band
files. -/
def dictFull : List (String × List String) :=
  [("april", ["T_B02.jp2", "T_B03.jp2", "T_B04.jp2", "T_B08.jp2"]),
   ("november", ["U_B02.jp2", "U_B03.jp2", "U_B04.jp2", "U_B08.jp2"])]

/-- Witness for C2: a concrete two-period request with all four bands matched
per period yields the fourteen documented labels in order. -/
theorem c2_stack_seven_bands_per_period_witness :
    (collectBands loadStub dictFull).map Prod.fst =
      ["B02-Apr", "B03-Apr", "B04-Apr", "B08-Apr", "NDVI-Apr", "EVI-Apr",
       "SAVI-Apr", "B02-Nov", "B03-Nov", "B04-Nov", "B08-Nov", "NDVI-Nov",
       "EVI-Nov", "SAVI-Nov"] ∧
    (collectBands loadStub dictFull).length = 14 := by
  have h := c2_stack_seven_bands_per_period loadStub dictFull
    (by decide) (by decide)
  exact ⟨h.2.1.trans (by decide), h.2.2.trans (by decide)⟩

/-- The output-size measure named by claim C3: the number of periods with at
least one loaded band. -/
def periodsWithAnyBand (dict : List (String × List String)) : ℕ :=
  (monthKeys.filter (fun k =>
    match dict.lookup k with
    | some files => bandsToLoad.any (fun b => (findBandFile b files).isSome)
    | none => false)).length

/-- A request whose single selected period matches only the B02 file. -/
def dictCex : List (String × List String) := [("april", ["x_B02.jp2"])]

/-- Counterexample to C3 as stated: a period matching only one of the four
band files contributes exactly that one band, so the stack has 1 band while
7 × (periods with at least one loaded band) = 7. -/
theorem c3_counterexample :
    process_multimonth_sentinel2 loadStub dictCex =
      .ok [("B02" ++ "-" ++ "Apr", [])] ∧
    periodsWithAnyBand dictCex = 1 ∧
    ¬ ((collectBands loadStub dictCex).length =
        7 * periodsWithAnyBand dictCex) := by
  refine ⟨by rfl, by decide, by decide⟩

lemma processMonth_length (load : String → Band) (a : String)
    (files : List String) :
    (processMonth load a files).length =
      (bandsToLoad.countP (fun b => (findBandFile b files).isSome)) +
      (if (bandsToLoad.countP (fun b => (findBandFile b files).isSome)) = 4
       then 3 else 0) := by
  rcases h₂ : findBandFile "B02" files with _ | f₂ <;>
    rcases h₃ : findBandFile "B03" files with _ | f₃ <;>
    rcases h₄ : findBandFile "B04" files with _ | f₄ <;>
    rcases h₈ : findBandFile "B08" files with _ | f₈ <;>
    simp [processMonth, bandsToLoad, h₂, h₃, h₄, h₈, List.countP_cons,
      List.lookup]

/-- C3 amended.  The stack's band count is the sum, over the three periods in
order, of the period's number of matched band files plus three derived-index
bands added exactly when all four were matched; a period with all four matched
contributes 7, a period with only some matched contributes just those matched
spectral bands. -/
theorem c3_amended_band_count (load : String → Band)
    (dict : List (String × List String))
    (h : collectBands load dict ≠ []) :
    process_multimonth_sentinel2 load dict = .ok (collectBands load dict) ∧
    (collectBands load dict).length =
      (monthKeys.map (fun k =>
        match dict.lookup k with
        | none => 0
        | some files =>
            (bandsToLoad.countP (fun b => (findBandFile b files).isSome)) +
            (if (bandsToLoad.countP
                  (fun b => (findBandFile b files).isSome)) = 4
             then 3 else 0))).sum := by
  constructor
  · simp [process_multimonth_sentinel2, List.isEmpty_iff, h]
  · rcases ha : dict.lookup "april" with _ | fa <;>
      rcases hb : dict.lookup "august" with _ | fb <;>
      rcases hc : dict.lookup "november" with _ | fc <;>
      simp [collectBands, monthKeys, ha, hb, hc, processMonth_length]

/-- Witness for C3's amended claim at a concrete partially-matched request. -/
theorem c3_amended_band_count_witness :
    process_multimonth_sentinel2 loadStub dictCex =
      .ok (collectBands loadStub dictCex) ∧
    (collectBands loadStub dictCex).length = 1 := by
  have h := c3_amended_band_count loadStub dictCex (by decide)
  exact ⟨h.1, h.2.trans (by decide)⟩

/-- C6.  For every band code in the fixed set, a code with no matching
uploaded file (name containing the code, `.jp2` extension) is silently
skipped: the month loop raises no error (the embedding of the loop is a total
function), a period none of whose band codes matched contributes zero bands,
and the request still succeeds whenever the overall collected stack is
nonempty. -/
theorem c6_unmatched_bands_skipped (load : String → Band) (a : String)
    (files : List String)
    (h : ∀ b ∈ bandsToLoad, findBandFile b files = none) :
    processMonth load a files = [] ∧
    ∀ dict, collectBands load dict ≠ [] →
      process_multimonth_sentinel2 load dict = .ok (collectBands load dict) := by
  refine ⟨processMonth_of_none_found load a files h, ?_⟩
  intro dict hd
  simp [process_multimonth_sentinel2, List.isEmpty_iff, hd]

/-- A request mixing a month with no matched band files and a month with one
matched band file. -/
def dictSkip : List (String × List String) :=
  [("april", ["scene.jp2"]), ("august", ["z_B02.jp2"])]

/-- Witness for C6: the unmatched April upload contributes zero bands and the
request still succeeds thanks to the August band. -/
theorem c6_unmatched_bands_skipped_witness :
    processMonth loadStub "Apr" ["scene.jp2"] = [] ∧
    process_multimonth_sentinel2 loadStub dictSkip =
      .ok (collectBands loadStub dictSkip) := by
  have h := c6_unmatched_bands_skipped loadStub "Apr" ["scene.jp2"] (by decide)
  exact ⟨h.1, h.2 dictSkip (by decide)⟩

/-- C10.  If every selected period's uploaded files match zero spectral band
codes, the collected band list is empty, the stacking step raises, and the
POST endpoint answers a JSON error body with status 500 (non-200) rather than
an empty output stack file. -/
theorem c10_empty_stack_is_http_error (load : String → Band)
    (selected : List String) (uploads : String → List String)
    (hne : buildMonthDict uploads selected ≠ [])
    (hnm : ∀ p ∈ buildMonthDict uploads selected, ∀ b ∈ bandsToLoad,
        findBandFile b p.2 = none) :
    process_multimonth_sentinel2 load (buildMonthDict uploads selected) =
      .error concatEmptyMsg ∧
    processRoute load selected uploads = (500, .error concatEmptyMsg) ∧
    (processRoute load selected uploads).1 ≠ 200 := by
  have key : ∀ k,
      (match (buildMonthDict uploads selected).lookup k with
        | none => ([] : List (String × Band))
        | some files => processMonth load (month_names k) files) = [] := by
    intro k
    rcases hk : (buildMonthDict uploads selected).lookup k with _ | files
    · rfl
    · exact processMonth_of_none_found load (month_names k) files
        (fun b hb => hnm (k, files) (mem_of_lookup_eq_some hk) b hb)
  have hc : collectBands load (buildMonthDict uploads selected) = [] := by
    simp only [collectBands, monthKeys, List.flatMap_cons, List.flatMap_nil,
      key, List.append_nil]
  have herr : process_multimonth_sentinel2 load
      (buildMonthDict uploads selected) = .error concatEmptyMsg := by
    simp [process_multimonth_sentinel2, hc]
  have hroute : processRoute load selected uploads =
      (500, .error concatEmptyMsg) := by
    simp [processRoute, List.isEmpty_iff, hne, herr]
  exact ⟨herr, hroute, by rw [hroute]; decide⟩

/-- Witness for C10: one selected month whose only upload matches no band
code. -/
theorem c10_empty_stack_is_http_error_witness :
    processRoute loadStub ["april"] (fun _ => ["scene.jp2"]) =
      (500, .error concatEmptyMsg) ∧
    (processRoute loadStub ["april"] (fun _ => ["scene.jp2"])).1 ≠ 200 := by
  have h := c10_empty_stack_is_http_error loadStub ["april"]
    (fun _ => ["scene.jp2"]) (by decide) (by decide)
  exact ⟨h.2.1, h.2.2⟩

/-! ### Green-space classification
(`greenspace_predictor_app_FINAL.py`: `load_or_create_model`, lines 603-646,
and `predict_green_spaces`, lines 649-735).  The input stack arrives here
already reshaped to pixel rows — `X = X_stack.reshape(n_bands, -1).T`, one row
of `n_bands` samples per pixel (line 668). -/

/-- The value held by the `TRAINED_MODEL` global: either a fitted classifier
loaded with `joblib.load` (its per-row prediction function, since a fitted
random forest labels each sample row independently), or the *unfitted*
`RandomForestClassifier(n_estimators=50, max_depth=15, random_state=42)`
created when no model file exists (line 645). -/
inductive ModelState : Type
  | fitted (f : List ℚ → ℤ)
  | unfittedRFC

/-- Lines 607-645 of `load_or_create_model`: load the model file when it
exists, else create the unfitted demo classifier; the Bool is the returned
`model_loaded` flag. -/
def load_or_create_model (modelOnDisk : Option (List ℚ → ℤ)) :
    ModelState × Bool :=
  match modelOnDisk with
  | some f => (.fitted f, true)
  | none => (.unfittedRFC, false)

/-- Library fact the guard on line 675 relies on: `predict` is a plain method
of `RandomForestClassifier`, so `hasattr(TRAINED_MODEL, 'predict')` is `True`
for fitted and unfitted estimators alike. -/
def hasattrPredict : ModelState → Bool := fun _ => true

/-- Library fact: `TRAINED_MODEL.predict(X_valid)` maps the per-row prediction
over the rows when the estimator is fitted, and raises
`sklearn.exceptions.NotFittedError` when it is not. -/
def modelPredictCall : ModelState → List (List ℚ) → Except String (List ℤ)
  | .fitted f, xs => .ok (xs.map f)
  | .unfittedRFC, _ => .error "NotFittedError"

/-- Insertion of one value into a sorted list (ascending). -/
def insertSorted (x : ℚ) : List ℚ → List ℚ
  | [] => [x]
  | y :: ys => if x ≤ y then x :: y :: ys else y :: insertSorted x ys

/-- Ascending sort, used to embed `np.median`. -/
def sortQ : List ℚ → List ℚ := List.foldr insertSorted []

/-- `np.median`: middle element of the sorted data, or the mean of the two
middle elements for even length (0 for empty data, a case the script's demo
branch never reaches since it requires at least one band). -/
def npMedian (l : List ℚ) : ℚ :=
  let s := sortQ l
  let n := s.length
  if n = 0 then 0
  else if n % 2 = 1 then s.getD (n / 2) 0
  else (s.getD (n / 2 - 1) 0 + s.getD (n / 2) 0) / 2

/-- The demo fallback branch of lines 679-691: average the designated
NDVI-like bands (4, 11, 18 for a 21-band stack, else the clamped band
`min(4, n_bands-1)`) per valid pixel and threshold at 0.3; with no usable
index band, threshold the first band at its median. -/
def demoNdviPredict (nbands : ℕ) (xvalid : List (List ℚ)) : List ℤ :=
  let idxs := (if 21 ≤ nbands then [4, 11, 18]
               else [min 4 (nbands - 1)]).filter (fun i => i < nbands)
  if idxs.isEmpty then
    let med := npMedian (xvalid.map (fun row => row.getD 0 0))
    xvalid.map (fun row => if med < row.getD 0 0 then (1 : ℤ) else 0)
  else
    xvalid.map (fun row =>
      let m := ((idxs.map (fun i => row.getD i 0)).sum) / (idxs.length : ℚ)
      if (3 / 10 : ℚ) < m then (1 : ℤ) else 0)

/-- Lines 675-691: the `hasattr` guard selects between the real classifier
call and the demo NDVI threshold rule. -/
def predictValidPixels (model : ModelState) (nbands : ℕ)
    (xvalid : List (List ℚ)) : Except String (List ℤ) :=
  if hasattrPredict model then modelPredictCall model xvalid
  else .ok (demoNdviPredict nbands xvalid)

/-- A pixel row is valid when no band holds the NaN sentinel
(`valid_mask = ~np.isnan(X).any(axis=1)`, line 671). -/
def validRow (row : List Pix) : Bool := row.all (fun x => x.isSome)

/-- The finite values of a row; on a fully-valid row this is exactly the row
the classifier receives. -/
def rowVals (row : List Pix) : List ℚ := row.filterMap id

/-- Lines 694-696: `y_pred = np.full(height*width, np.nan);
y_pred[valid_mask] = y_pred_valid`.  Walking the rows in order, each valid
row consumes the next prediction; invalid rows keep the NaN sentinel. -/
def scatterPreds : List (List Pix) → List ℤ → List (Option ℤ)
  | [], _ => []
  | row :: rest, preds =>
    if validRow row then
      match preds with
      | p :: ps => some p :: scatterPreds rest ps
      | [] => none :: scatterPreds rest []
    else none :: scatterPreds rest preds

/-- The classifier's prediction input
(`X_valid = X[valid_mask]`, lines 671-672): the fully-valid rows, as values. -/
def xValidOf (rows : List (List Pix)) : List (List ℚ) :=
  (rows.filter validRow).map rowVals

/-- The summary statistics record of lines 699-709. -/
structure PredStats where
  green_pixels : ℕ
  total_pixels : ℕ
  green_percentage : ℚ
  dimensions : String
  n_bands : ℕ
  deriving Repr, DecidableEq

/-- Lines 699-709: `green_pixels = np.sum(y_pred_map == 1)` (a NaN never
compares equal to 1), `total_valid_pixels = np.sum(~np.isnan(y_pred_map))`,
`green_percentage = green/total*100 if total > 0 else 0`, and
`stats = {green_pixels, total_pixels, green_percentage, dimensions,
n_bands}`. -/
def computeStats (ypred : List (Option ℤ)) (height width nbands : ℕ) :
    PredStats :=
  let green := ypred.countP (fun p => p == some 1)
  let valid := ypred.countP (fun p => p.isSome)
  { green_pixels := green
    total_pixels := valid
    green_percentage :=
      if 0 < valid then (green : ℚ) / (valid : ℚ) * 100 else 0
    dimensions := toString height ++ "×" ++ toString width
    n_bands := nbands }

/-- The whole of `predict_green_spaces` after loading (lines 666-709): mask
invalid pixels out, predict over the valid rows, scatter predictions back
into a full-size grid with the NaN sentinel elsewhere, and compute the
summary statistics.  An exception from the classifier escapes as `.error`
(the `/predict` route catches it and answers 500). -/
def predict_green_spaces (model : ModelState) (height width nbands : ℕ)
    (rows : List (List Pix)) :
    Except String (List (Option ℤ) × PredStats) :=
  match predictValidPixels model nbands (xValidOf rows) with
  | .error e => .error e
  | .ok preds =>
      let ymap := scatterPreds rows preds
      .ok (ymap, computeStats ymap height width nbands)

lemma scatterPreds_filter_map (g : List Pix → ℤ) (rows : List (List Pix)) :
    scatterPreds rows ((rows.filter validRow).map g) =
      rows.map (fun r => if validRow r then some (g r) else none) := by
  induction rows with
  | nil => rfl
  | cons row rest ih =>
    by_cases h : validRow row <;> simp [scatterPreds, h, ih]

/-- The prediction grid the fitted-classifier path produces. -/
def yMapOf (f : List ℚ → ℤ) (rows : List (List Pix)) : List (Option ℤ) :=
  rows.map (fun r => if validRow r then some (f (rowVals r)) else none)

lemma predict_green_spaces_fitted (f : List ℚ → ℤ) (height width nbands : ℕ)
    (rows : List (List Pix)) :
    predict_green_spaces (.fitted f) height width nbands rows =
      .ok (yMapOf f rows, computeStats (yMapOf f rows) height width nbands) := by
  have hmap : (xValidOf rows).map f =
      (rows.filter validRow).map (fun r => f (rowVals r)) := by
    simp [xValidOf]
  simp only [predict_green_spaces, predictValidPixels, hasattrPredict,
    modelPredictCall, if_true, hmap,
    scatterPreds_filter_map (fun r => f (rowVals r)) rows, yMapOf]

/-- C4.  In the classification pass, every pixel in which any input band holds
the NaN sentinel is excluded from the classifier's prediction input (only
fully-valid rows are filtered into it) and is set to the sentinel in the
output grid; every fully-valid pixel receives the classifier's predicted
label at its original grid position. -/
theorem c4_nan_pixels_masked (f : List ℚ → ℤ) (height width nbands i : ℕ)
    (rows : List (List Pix)) (row : List Pix) (hrow : rows[i]? = some row) :
    predict_green_spaces (.fitted f) height width nbands rows =
      .ok (yMapOf f rows, computeStats (yMapOf f rows) height width nbands) ∧
    (validRow row = false →
      row ∉ rows.filter validRow ∧ (yMapOf f rows)[i]? = some none) ∧
    (validRow row = true →
      (yMapOf f rows)[i]? = some (some (f (rowVals row)))) := by
  refine ⟨predict_green_spaces_fitted f height width nbands rows, ?_, ?_⟩
  · intro hv
    constructor
    · intro hmem
      have := List.of_mem_filter hmem
      rw [hv] at this
      exact Bool.false_ne_true this
    · rw [yMapOf, List.getElem?_map, hrow]
      simp [hv]
  · intro hv
    rw [yMapOf, List.getElem?_map, hrow]
    simp [hv]

/-- Witness for C4 on a two-pixel stack: the pixel with a NaN band is
sentinel in the output and absent from the prediction input; the fully-valid
pixel gets the classifier's label. -/
theorem c4_nan_pixels_masked_witness :
    (yMapOf (fun _ => 1) [[some 1, none], [some 2, some 3]])[0]? =
      some none ∧
    (yMapOf (fun _ => 1) [[some 1, none], [some 2, some 3]])[1]? =
      some (some 1) ∧
    [some 1, none] ∉ [[some 1, none], [some 2, some 3]].filter validRow := by
  have h0 := c4_nan_pixels_masked (fun _ => 1) 1 2 2 0
    [[some 1, none], [some 2, some 3]] [some 1, none] rfl
  have h1 := c4_nan_pixels_masked (fun _ => 1) 1 2 2 1
    [[some 1, none], [some 2, some 3]] [some 2, some 3] rfl
  refine ⟨(h0.2.1 (by decide)).2, h1.2.2 (by decide), (h0.2.1 (by decide)).1⟩

/-- C5.  The returned summary's `green_percentage` is exactly
green_pixels / total_valid_pixels × 100, where `green_pixels` counts output
pixels labelled 1 and `total_pixels` counts non-missing output pixels, and
the summary consists of exactly the fields
green_pixels, total_pixels, green_percentage, dimensions, n_bands. -/
theorem c5_green_percentage_exact (ypred : List (Option ℤ))
    (height width nbands : ℕ)
    (hpos : 0 < ypred.countP (fun p => p.isSome)) :
    computeStats ypred height width nbands =
      { green_pixels := ypred.countP (fun p => p == some 1)
        total_pixels := ypred.countP (fun p => p.isSome)
        green_percentage := (ypred.countP (fun p => p == some 1) : ℚ) /
          (ypred.countP (fun p => p.isSome) : ℚ) * 100
        dimensions := toString height ++ "×" ++ toString width
        n_bands := nbands } := by
  simp [computeStats, hpos]

/-- Witness for C5: a three-pixel map with one green, one non-green and one
missing pixel reports exactly 50%. -/
theorem c5_green_percentage_exact_witness :
    (computeStats [some 1, some 0, none] 1 3 21).green_percentage = 50 ∧
    (computeStats [some 1, some 0, none] 1 3 21).green_pixels = 1 ∧
    (computeStats [some 1, some 0, none] 1 3 21).total_pixels = 2 := by
  have h := c5_green_percentage_exact [some 1, some 0, none] 1 3 21
    (by decide)
  rw [h]
  refine ⟨?_, by decide, by decide⟩
  norm_num

/-- C7 evaluated at its failing input (code bug): with no saved model file,
`load_or_create_model` stores an unfitted `RandomForestClassifier`, the
`hasattr(TRAINED_MODEL, 'predict')` guard is still `True` for it, so the
prediction pass calls `predict` on the unfitted estimator and raises
`NotFittedError` — the request fails with a 500 error instead of falling back
to the NDVI-threshold demo rule the claim (and the script's own warning
messages) describe. -/
theorem c7_unfitted_model_raises (nbands : ℕ) (rows : List (List Pix)) :
    hasattrPredict (load_or_create_model none).1 = true ∧
    predict_green_spaces (load_or_create_model none).1 21 21 nbands rows =
      .error "NotFittedError" := by
  exact ⟨rfl, rfl⟩

/-! ### WorldCover tile download
(`download_worldcover_sydney.py`: `download_worldcover_tile`, lines 65-95,
and the main download loop, lines 244-252). -/

/-- The downloader's environment: whether the output path already exists on
disk, and whether the single HTTP GET for a tile succeeds (`false` stands for
a raised `requests.exceptions.RequestException`).  The environment is the
state at the start of the run; the script's configured tile list holds
distinct names, so a tile written by one iteration is never re-requested by a
later one. -/
structure DownloadEnv where
  onDisk : String → Bool
  netOk : String → Bool

/-- Lines 65-95: return the cached path when the file already exists (no
request issued); otherwise issue exactly one GET — on success return the
path, on a request exception report the error and return `None`.  The second
component logs the tile names for which a request was issued (one entry per
call), making the absence of retries checkable. -/
def download_worldcover_tile (env : DownloadEnv) (outdir tile : String) :
    Option String × List String :=
  let path := outdir ++ "/" ++ tile
  if env.onDisk path then (some path, [])
  else if env.netOk tile then (some path, [tile]) else (none, [tile])

/-- The main loop of lines 244-248: attempt every configured tile in order,
collecting the successful paths (`downloaded_tiles`); a failed tile
contributes no path and the loop moves on.  The second component concatenates
the per-tile request logs. -/
def downloadAllTiles (env : DownloadEnv) (outdir : String) :
    List String → List String × List String
  | [] => ([], [])
  | t :: ts =>
    let r := download_worldcover_tile env outdir t
    let rest := downloadAllTiles env outdir ts
    ((match r.1 with | some p => [p] | none => []) ++ rest.1, r.2 ++ rest.2)

/-- Lines 250-252: the run aborts (`exit(1)`) exactly when `downloaded_tiles`
is empty. -/
def downloadRunFails (env : DownloadEnv) (outdir : String)
    (tiles : List String) : Bool :=
  ((downloadAllTiles env outdir tiles).1).isEmpty

lemma downloadAllTiles_fst (env : DownloadEnv) (outdir : String)
    (tiles : List String) :
    (downloadAllTiles env outdir tiles).1 =
      tiles.filterMap (fun t => (download_worldcover_tile env outdir t).1) := by
  induction tiles with
  | nil => rfl
  | cons t ts ih =>
    rw [downloadAllTiles, List.filterMap_cons]
    rcases hd : (download_worldcover_tile env outdir t).1 with _ | p <;>
      simp [hd, ih]

lemma downloadAllTiles_snd (env : DownloadEnv) (outdir : String)
    (tiles : List String) :
    (downloadAllTiles env outdir tiles).2 =
      tiles.filter (fun t => !env.onDisk (outdir ++ "/" ++ t)) := by
  induction tiles with
  | nil => rfl
  | cons t ts ih =>
    rw [downloadAllTiles, List.filter_cons]
    by_cases hdisk : env.onDisk (outdir ++ "/" ++ t) <;>
      by_cases hnet : env.netOk t <;>
      simp [download_worldcover_tile, hdisk, hnet, ih]

/-- C8.  A network failure for one tile is reported per-tile and does not
abort the run: the loop attempts every tile in order and collects exactly the
successes (a failed tile yields no path), each tile is requested at most once
(no retries), and the overall run fails exactly when zero tiles succeed. -/
theorem c8_per_tile_failure_no_retry (env : DownloadEnv) (outdir : String)
    (tiles : List String) (hnd : tiles.Nodup) :
    (downloadAllTiles env outdir tiles).1 =
      tiles.filterMap (fun t => (download_worldcover_tile env outdir t).1) ∧
    (downloadAllTiles env outdir tiles).2 =
      tiles.filter (fun t => !env.onDisk (outdir ++ "/" ++ t)) ∧
    (∀ t, ((downloadAllTiles env outdir tiles).2).count t ≤ 1) ∧
    (downloadRunFails env outdir tiles = true ↔
      ∀ t ∈ tiles, (download_worldcover_tile env outdir t).1 = none) := by
  have h1 := downloadAllTiles_fst env outdir tiles
  have h2 := downloadAllTiles_snd env outdir tiles
  refine ⟨h1, h2, ?_, ?_⟩
  · intro t
    rw [h2]
    exact List.nodup_iff_count_le_one.mp
      (hnd.filter (fun t => !env.onDisk (outdir ++ "/" ++ t))) t
  · rw [downloadRunFails, h1, List.isEmpty_iff, List.filterMap_eq_nil_iff]

/-- A concrete environment in which only tile "A" downloads successfully. -/
def envOnlyA : DownloadEnv :=
  { onDisk := fun _ => false, netOk := fun t => t == "A" }

/-- Witness for C8: with tile "B" failing, the run still collects "A", issues
one request per tile, and does not fail. -/
theorem c8_per_tile_failure_no_retry_witness :
    (downloadAllTiles envOnlyA "wc" ["A", "B"]).1 = ["wc/A"] ∧
    (downloadAllTiles envOnlyA "wc" ["A", "B"]).2 = ["A", "B"] ∧
    ((downloadAllTiles envOnlyA "wc" ["A", "B"]).2).count "B" ≤ 1 ∧
    downloadRunFails envOnlyA "wc" ["A", "B"] = false := by
  have h := c8_per_tile_failure_no_retry envOnlyA "wc" ["A", "B"] (by decide)
  refine ⟨h.1.trans (by decide), h.2.1.trans (by decide), h.2.2.1 "B", ?_⟩
  rcases hf : downloadRunFails envOnlyA "wc" ["A", "B"]
  · rfl
  · have := (h.2.2.2.mp hf) "A" (by decide)
    simp [download_worldcover_tile, envOnlyA] at this

/-! ### AOI normalization
(`sentinel2_multimonth_app.py` lines 678-682 and `sentinel2_web_app.py`
lines 498-502). -/

/-- A loaded vector layer: its declared EPSG code (if any) and its geometry's
coordinates. -/
structure AOIFrame where
  crs : Option Int
  coords : List (ℚ × ℚ)
  deriving Repr, DecidableEq

/-- Lines 678-682: `if aoi.crs is None: aoi.set_crs("EPSG:4326")`, then
`if aoi.crs.to_epsg() != 4326: aoi = aoi.to_crs("EPSG:4326")`.  The library
reprojection `to_crs` is abstracted as the parameter `toCrs`; the branch that
invokes it is the scripts' own logic. -/
def normalizeAOI (toCrs : List (ℚ × ℚ) → List (ℚ × ℚ))
    (aoi : AOIFrame) : AOIFrame :=
  let a1 := if aoi.crs = none then { aoi with crs := some 4326 } else aoi
  if a1.crs ≠ some 4326 then { crs := some 4326, coords := toCrs a1.coords }
  else a1

lemma normalizeAOI_fix (toCrs : List (ℚ × ℚ) → List (ℚ × ℚ))
    (aoi : AOIFrame) (h : aoi.crs = some 4326) :
    normalizeAOI toCrs aoi = aoi := by
  simp [normalizeAOI, h]

lemma normalizeAOI_crs (toCrs : List (ℚ × ℚ) → List (ℚ × ℚ))
    (aoi : AOIFrame) : (normalizeAOI toCrs aoi).crs = some 4326 := by
  rcases h : aoi.crs with _ | c
  · simp [normalizeAOI, h]
  · by_cases hc : c = 4326 <;> simp [normalizeAOI, h, hc]

/-- C9.  AOI reprojection to EPSG:4326 is idempotent: a geometry already
declared in EPSG:4326 is passed through with identical coordinates (the
reprojection branch is not taken), and normalizing twice equals normalizing
once for every input. -/
theorem c9_reprojection_idempotent (toCrs : List (ℚ × ℚ) → List (ℚ × ℚ))
    (aoi : AOIFrame) (h : aoi.crs = some 4326) :
    (normalizeAOI toCrs aoi).coords = aoi.coords ∧
    normalizeAOI toCrs (normalizeAOI toCrs aoi) = normalizeAOI toCrs aoi := by
  constructor
  · rw [normalizeAOI_fix toCrs aoi h]
  · exact normalizeAOI_fix toCrs _ (normalizeAOI_crs toCrs aoi)

/-- Witness for C9 at a concrete EPSG:4326 square, with a reprojection stub
that would visibly destroy the coordinates were it invoked. -/
theorem c9_reprojection_idempotent_witness :
    (normalizeAOI (fun _ => []) ⟨some 4326, [(151, -33), (152, -34)]⟩).coords
      = [(151, -33), (152, -34)] := by
  exact (c9_reprojection_idempotent (fun _ => [])
    ⟨some 4326, [(151, -33), (152, -34)]⟩ rfl).1

end Infrared
